import Mathlib

/-!
Shallow embedding of the Tauri application entry point of HiveRun/hive
(src/src-tauri/src/main.rs).

The program registers a single command `greet`, builds a menu with one
submenu ("View") holding one item ("Toggle Devtools", id "toggle-devtools"),
and installs a menu-event callback that toggles the devtools panel of the
webview window labeled "main".

The embedding models the runtime-owned application state as a map from
window labels to window states; each window carries its devtools flag and
an opaque component for all the window state the handler never touches.
The menu-event callback becomes a pure state transformer returning the new
application state together with the list of diagnostic lines written to
the error stream. All definitions are executable.
-/

namespace Hive

/-- The body of the `greet` command: it formats the greeting string,
substituting the input verbatim. -/
def greet (name : String) : String :=
  "Hello, " ++ name ++ "! You\x27ve been greeted from Rust!"

/-- A webview window as seen by the handler: its devtools flag, plus an
opaque component standing for all other window state (url, size, ...). -/
structure WebviewWindow (ω : Type) where
  devtoolsOpen : Bool
  rest : ω
  deriving DecidableEq

/-- The runtime application handle: the labeled windows it owns, plus an
opaque component standing for all other application state. -/
structure AppHandle (σ ω : Type) where
  windows : String → Option (WebviewWindow ω)
  rest : σ

/-- A menu event carries the identifier of the activated menu item. -/
structure MenuEvent where
  id : String
  deriving DecidableEq

variable {σ ω : Type}

/-- Embedding of the runtime query for the devtools flag of a window. -/
def WebviewWindow.is_devtools_open (w : WebviewWindow ω) : Bool :=
  w.devtoolsOpen

/-- Embedding of the runtime call opening the devtools panel: only the
devtools flag changes. -/
def WebviewWindow.open_devtools (w : WebviewWindow ω) : WebviewWindow ω :=
  ⟨true, w.rest⟩

/-- Embedding of the runtime call closing the devtools panel: only the
devtools flag changes. -/
def WebviewWindow.close_devtools (w : WebviewWindow ω) : WebviewWindow ω :=
  ⟨false, w.rest⟩

/-- Embedding of the label lookup used by the handler. -/
def AppHandle.get_webview_window (app : AppHandle σ ω) (label : String) :
    Option (WebviewWindow ω) :=
  app.windows label

/-- Writing back the state of the window at a given label; windows at
other labels and the rest of the application state are untouched. -/
def AppHandle.setWindow (app : AppHandle σ ω) (label : String)
    (w : WebviewWindow ω) : AppHandle σ ω :=
  ⟨fun l => if l = label then some w else app.windows l, app.rest⟩

/-- The menu-event callback installed by the source with on_menu_event:
on id "toggle-devtools" it looks up the window labeled "main"; if present
it queries the devtools flag and closes when open, opens when closed; if
absent it writes one diagnostic line. Other ids fall through. The result
pairs the new application state with the diagnostic lines emitted. -/
def on_menu_event (app : AppHandle σ ω) (event : MenuEvent) :
    AppHandle σ ω × List String :=
  if event.id = "toggle-devtools" then
    match app.get_webview_window "main" with
    | some window =>
        if window.is_devtools_open then
          (app.setWindow "main" window.close_devtools, [])
        else
          (app.setWindow "main" window.open_devtools, [])
    | none =>
        (app, ["Failed to toggle devtools: main window is not available"])
  else
    (app, [])

/-- The devtools flag of the window labeled "main", when it resolves. -/
def mainDevtoolsState (app : AppHandle σ ω) : Option Bool :=
  (app.get_webview_window "main").map WebviewWindow.devtoolsOpen

/-- A menu item as built by MenuItemBuilder: identifier and label. -/
structure MenuItem where
  id : String
  label : String
  deriving DecidableEq

/-- A submenu as built by SubmenuBuilder: label and contained items. -/
structure Submenu where
  label : String
  items : List MenuItem
  deriving DecidableEq

/-- The application menu: its list of top-level submenus. -/
structure Menu where
  items : List Submenu
  deriving DecidableEq

/-- The menu item built with id "toggle-devtools" and label
"Toggle Devtools". -/
def toggle_devtools : MenuItem :=
  ⟨"toggle-devtools", "Toggle Devtools"⟩

/-- The "View" submenu holding the single toggle item. -/
def view_menu : Submenu :=
  ⟨"View", [toggle_devtools]⟩

/-- The menu installed at startup: the "View" submenu is its only entry.
The source never calls a menu-mutation API afterwards, so the embedding
exposes the menu as a constant. -/
def appMenu : Menu :=
  ⟨[view_menu]⟩

/-- Invoking the greet command in a given application state: the handler
reads no state and writes none, so the state is returned unchanged
alongside the formatted output. -/
def greetCmd (app : AppHandle σ ω) (name : String) :
    String × AppHandle σ ω :=
  (greet name, app)

/-- The command registry populated by the source: the single entry
registered for greet. -/
def commandRegistry : List (String × (String → String)) :=
  [("greet", greet)]

/-- Modelled from the spec: the runtime dispatcher code generated for the
registered commands is not under src/; per the spec, calling an
unregistered command name is surfaced to the caller as a dispatch
failure, never a crash. Dispatch looks the name up in the registry and
returns an error value when it is absent. -/
def invoke (cmd : String) (arg : String) : Except String String :=
  match commandRegistry.find? (fun p => p.1 == cmd) with
  | some p => Except.ok (p.2 arg)
  | none => Except.error ("unknown command: " ++ cmd)

/-- A concrete application state: a "main" window with devtools closed
and no other windows. -/
def appClosed : AppHandle Unit Unit :=
  ⟨fun l => if l = "main" then some ⟨false, ()⟩ else none, ()⟩

/-- A concrete application state owning no windows at all. -/
def appNoWindows : AppHandle Unit Unit :=
  ⟨fun _ => none, ()⟩

/-- A concrete application state with a "main" window (devtools closed,
other window state 7) and a second window labeled "settings". -/
def appTwoWindows : AppHandle Unit Nat :=
  ⟨fun l =>
    if l = "main" then some ⟨false, 7⟩
    else if l = "settings" then some ⟨true, 9⟩
    else none, ()⟩

/-- Helper: looking up the label just written returns the new window;
other labels are unaffected. -/
theorem get_setWindow (app : AppHandle σ ω) (label l : String)
    (w : WebviewWindow ω) :
    (app.setWindow label w).get_webview_window l
      = if l = label then some w else app.get_webview_window l := rfl

/-- Helper: one activation of "toggle-devtools" with a resolved "main"
window rewrites that window with its devtools flag negated and its other
state kept, and emits no diagnostics. -/
theorem toggle_main_step (app : AppHandle σ ω) (w : WebviewWindow ω)
    (h : app.get_webview_window "main" = some w) :
    on_menu_event app ⟨"toggle-devtools"⟩
      = (app.setWindow "main" ⟨!w.devtoolsOpen, w.rest⟩, []) := by
  cases hb : w.devtoolsOpen <;>
    simp [on_menu_event, h, hb, WebviewWindow.is_devtools_open,
      WebviewWindow.open_devtools, WebviewWindow.close_devtools]

/-- C1: for every string s, including the empty string, greet s is exactly
the concatenation of the greeting prefix, s verbatim, and the greeting
suffix, with no truncation or escaping; at the empty string the output is
the bare greeting. -/
theorem greet_formats :
    (∀ s : String,
      greet s = "Hello, " ++ s ++ "! You\x27ve been greeted from Rust!") ∧
    greet "" = "Hello, ! You\x27ve been greeted from Rust!" :=
  ⟨fun _ => rfl, by decide⟩

/-- C2: when the "main" window resolves, one activation of the
"toggle-devtools" menu item negates the devtools state (Closed goes to
Open and Open goes to Closed), and two consecutive activations restore
the starting devtools state. -/
theorem toggle_devtools_involution (σ ω : Type) (app : AppHandle σ ω)
    (w : WebviewWindow ω) (h : app.get_webview_window "main" = some w) :
    mainDevtoolsState (on_menu_event app ⟨"toggle-devtools"⟩).1
      = some (!w.devtoolsOpen) ∧
    mainDevtoolsState
        (on_menu_event (on_menu_event app ⟨"toggle-devtools"⟩).1
          ⟨"toggle-devtools"⟩).1
      = some w.devtoolsOpen := by
  have h1 := toggle_main_step app w h
  have h2 := toggle_main_step (app.setWindow "main" ⟨!w.devtoolsOpen, w.rest⟩)
    ⟨!w.devtoolsOpen, w.rest⟩ (by simp [get_setWindow])
  constructor
  · simp [h1, mainDevtoolsState, get_setWindow]
  · simp [h1, h2, mainDevtoolsState, get_setWindow]

/-- C2 witness: from the concrete state whose "main" window has devtools
closed, one activation opens and a second activation closes again. -/
theorem toggle_devtools_involution_witness :
    appClosed.get_webview_window "main" = some ⟨false, ()⟩ ∧
    (mainDevtoolsState (on_menu_event appClosed ⟨"toggle-devtools"⟩).1
        = some true ∧
     mainDevtoolsState
        (on_menu_event (on_menu_event appClosed ⟨"toggle-devtools"⟩).1
          ⟨"toggle-devtools"⟩).1
        = some false) :=
  ⟨rfl, toggle_devtools_involution Unit Unit appClosed ⟨false, ()⟩ rfl⟩

/-- C3: if no window labeled "main" resolves, activating "toggle-devtools"
returns the application state unchanged (so every devtools state is
unchanged), the handler returns normally rather than faulting, and one
diagnostic line is emitted. -/
theorem toggle_devtools_no_main (σ ω : Type) (app : AppHandle σ ω)
    (h : app.get_webview_window "main" = none) :
    (on_menu_event app ⟨"toggle-devtools"⟩).1 = app ∧
    (on_menu_event app ⟨"toggle-devtools"⟩).2
      = ["Failed to toggle devtools: main window is not available"] := by
  constructor <;> simp [on_menu_event, h]

/-- C3 witness: in the concrete state owning no windows, the toggle event
leaves the state unchanged and emits the diagnostic line. -/
theorem toggle_devtools_no_main_witness :
    appNoWindows.get_webview_window "main" = none ∧
    ((on_menu_event appNoWindows ⟨"toggle-devtools"⟩).1 = appNoWindows ∧
     (on_menu_event appNoWindows ⟨"toggle-devtools"⟩).2
       = ["Failed to toggle devtools: main window is not available"]) :=
  ⟨rfl, toggle_devtools_no_main Unit Unit appNoWindows rfl⟩

/-- C4: a menu event whose id is not "toggle-devtools" is a no-op: the
whole application state is returned unchanged and no diagnostic is
emitted. -/
theorem other_menu_id_noop (σ ω : Type) (app : AppHandle σ ω) (id : String)
    (h : id ≠ "toggle-devtools") :
    on_menu_event app ⟨id⟩ = (app, []) := by
  simp [on_menu_event, h]

/-- C4 witness: the unknown id "open-file" leaves the concrete state
unchanged with no diagnostics. -/
theorem other_menu_id_noop_witness :
    ("open-file" : String) ≠ "toggle-devtools" ∧
    on_menu_event appClosed ⟨"open-file"⟩ = (appClosed, []) :=
  ⟨by decide, other_menu_id_noop Unit Unit appClosed "open-file" (by decide)⟩

/-- C6: greet is pure and deterministic: invoked as a command in any two
application states, the same input yields the identical output, and the
application state is returned unchanged. -/
theorem greet_pure (σ ω : Type) :
    ∀ (a b : AppHandle σ ω) (s : String),
      (greetCmd a s).1 = (greetCmd b s).1 ∧ (greetCmd a s).2 = a :=
  fun _ _ _ => ⟨rfl, rfl⟩

/-- C7: the bridge keeps no devtools state of its own: the devtools state
resulting from a "toggle-devtools" activation is determined solely by the
devtools state queried from the resolved "main" window at that event, so
any two application states agreeing on that queried state (however they
were reached) agree on the resulting devtools state. -/
theorem toggle_determined_by_query (σ₁ ω₁ σ₂ ω₂ : Type)
    (a : AppHandle σ₁ ω₁) (b : AppHandle σ₂ ω₂)
    (v : WebviewWindow ω₁) (u : WebviewWindow ω₂)
    (hv : a.get_webview_window "main" = some v)
    (hu : b.get_webview_window "main" = some u)
    (hq : v.devtoolsOpen = u.devtoolsOpen) :
    mainDevtoolsState (on_menu_event a ⟨"toggle-devtools"⟩).1
      = mainDevtoolsState (on_menu_event b ⟨"toggle-devtools"⟩).1 := by
  simp [toggle_main_step a v hv, toggle_main_step b u hu,
    mainDevtoolsState, get_setWindow, hq]

/-- C7 witness: two different concrete states whose "main" windows agree
on the queried devtools state produce the same resulting devtools
state. -/
theorem toggle_determined_by_query_witness :
    appClosed.get_webview_window "main" = some ⟨false, ()⟩ ∧
    appTwoWindows.get_webview_window "main" = some ⟨false, 7⟩ ∧
    ((⟨false, ()⟩ : WebviewWindow Unit).devtoolsOpen
       = (⟨false, 7⟩ : WebviewWindow Nat).devtoolsOpen) ∧
    mainDevtoolsState (on_menu_event appClosed ⟨"toggle-devtools"⟩).1
      = mainDevtoolsState (on_menu_event appTwoWindows ⟨"toggle-devtools"⟩).1 :=
  ⟨rfl, rfl, rfl,
    toggle_determined_by_query Unit Unit Unit Nat appClosed appTwoWindows
      ⟨false, ()⟩ ⟨false, 7⟩ rfl rfl rfl⟩

/-- C8: the startup menu consists of exactly one top-level submenu,
labeled "View", whose single item has id "toggle-devtools" and label
"Toggle Devtools"; the embedding exposes the menu as a constant since the
source never mutates it after the builder runs. -/
theorem menu_shape :
    appMenu.items = [view_menu] ∧
    view_menu.label = "View" ∧
    view_menu.items = [toggle_devtools] ∧
    toggle_devtools.id = "toggle-devtools" ∧
    toggle_devtools.label = "Toggle Devtools" :=
  ⟨rfl, rfl, rfl, rfl, rfl⟩

/-- C9: the command registry exposes exactly the single name "greet", and
invoking any other name returns a dispatch failure value to the caller
instead of crashing. -/
theorem registry_single_command :
    commandRegistry.map Prod.fst = ["greet"] ∧
    ∀ cmd arg : String, cmd ≠ "greet" →
      invoke cmd arg = Except.error ("unknown command: " ++ cmd) := by
  refine ⟨rfl, fun cmd arg h => ?_⟩
  have hf : (("greet" : String) == cmd) = false :=
    beq_eq_false_iff_ne.mpr (Ne.symm h)
  simp [invoke, commandRegistry, List.find?, hf]

/-- C9 witness: invoking the unregistered name "echo" returns an error
value. -/
theorem registry_single_command_witness :
    ("echo" : String) ≠ "greet" ∧
    invoke "echo" "x" = Except.error ("unknown command: " ++ "echo") :=
  ⟨by decide, registry_single_command.2 "echo" "x" (by decide)⟩

/-- C10: every menu event touches at most the devtools flag of the window
labeled "main": the rest of the application state is unchanged, windows
at every other label are unchanged, and the non-devtools state of the
"main" window itself is unchanged. -/
theorem menu_event_frame (σ ω : Type) (app : AppHandle σ ω) (e : MenuEvent) :
    (on_menu_event app e).1.rest = app.rest ∧
    (∀ l : String, l ≠ "main" →
      (on_menu_event app e).1.windows l = app.windows l) ∧
    ((on_menu_event app e).1.windows "main").map WebviewWindow.rest
      = (app.windows "main").map WebviewWindow.rest := by
  by_cases hid : e.id = "toggle-devtools"
  · cases hw : app.get_webview_window "main" with
    | none =>
        simp [on_menu_event, hid, hw]
    | some w =>
        have hw2 : app.windows "main" = some w := hw
        cases hb : w.devtoolsOpen <;>
          simp [on_menu_event, hid, hw, hb, AppHandle.setWindow,
            WebviewWindow.is_devtools_open, WebviewWindow.open_devtools,
            WebviewWindow.close_devtools, hw2] <;>
          intro l hl <;> simp [hl]
  · simp [on_menu_event, hid]

/-- C10 witness: a toggle event on the concrete two-window state leaves
the rest state, the window at the other label, and the non-devtools part
of "main" unchanged. -/
theorem menu_event_frame_witness :
    (on_menu_event appTwoWindows ⟨"toggle-devtools"⟩).1.rest
      = appTwoWindows.rest ∧
    (("settings" : String) ≠ "main" ∧
      (on_menu_event appTwoWindows ⟨"toggle-devtools"⟩).1.windows "settings"
        = appTwoWindows.windows "settings") ∧
    ((on_menu_event appTwoWindows ⟨"toggle-devtools"⟩).1.windows "main").map
        WebviewWindow.rest
      = (appTwoWindows.windows "main").map WebviewWindow.rest :=
  ⟨(menu_event_frame Unit Nat appTwoWindows ⟨"toggle-devtools"⟩).1,
   ⟨by decide,
    (menu_event_frame Unit Nat appTwoWindows ⟨"toggle-devtools"⟩).2.1
      "settings" (by decide)⟩,
   (menu_event_frame Unit Nat appTwoWindows ⟨"toggle-devtools"⟩).2.2⟩

end Hive
